import Mathlib

/-!
# Verification of the iClicker polling driver (`iclickerpoll.py`)

A shallow embedding of the protocol codec, response log, tally display,
handshake, ingestion loop and screen-update logic of `iclickerpoll.py`,
together with theorems settling the specification claims about them.

Bytes are modelled as `Nat` (with explicit `< 256` hypotheses where byte
validity matters), frames as `List Nat`, Python's fallible operations
(`chr` on a possibly-negative argument) as `Option`-valued functions.
-/

namespace IClicker

/-- The padding/truncation performed by the `Command` constructor:
`byte_array[:64]` extended with zeros to exactly 64 bytes. -/
def pad64 (byte_array : List Nat) : List Nat :=
  let b := byte_array.take 64
  b ++ List.replicate (64 - b.length) 0

/-- `Command(byte_array)`: the stored 64-byte buffer `self.bytes`. -/
def mkCommand (byte_array : List Nat) : List Nat := pad64 byte_array

/-- Python's `"%02X" % n` for a nonnegative `n`: uppercase hex,
zero-padded on the left to a minimum width of 2. -/
def pyHex02X (n : Nat) : String :=
  let ds := (Nat.toDigits 16 n).map Char.toUpper
  String.mk (List.replicate (2 - ds.length) '0' ++ ds)

/-- Python's `chr`: defined exactly on `0 ≤ n < 0x110000`, raising
`ValueError` (modelled as `none`) otherwise. -/
def pychr (n : Int) : Option Char :=
  if 0 ≤ n ∧ n < 1114112 then some (Char.ofNat n.toNat) else none

/-- `Command.clicker_id_from_bytes`: appends the XOR checksum byte to the
three identifier bytes and formats all four as `"%02X"` hex. -/
def clicker_id_from_bytes (byte_seq : List Nat) : String :=
  let bs := byte_seq ++
    [Nat.xor (Nat.xor (byte_seq.getD 0 0) (byte_seq.getD 1 0)) (byte_seq.getD 2 0)]
  String.join (bs.map pyHex02X)

/-- The decoded semantic content of a frame: the `'type'` tag (plus fields)
of the dict returned by `Command.info`. -/
inductive Info where
  | unknown (raw_command : List Nat)
  | setFrequency (freq1 freq2 : Int)
  | startPolling
  | stopPolling
  | resetBase
  | setPollType (quiz_type : Int)
  | setIClicker2Protocol
  | clickerResponse (clicker_id : String) (response : Char) (seq_num : Nat)
deriving DecidableEq

/-- `Command._process_alpha_clicker_response`: clicker id from bytes 3..5,
answer character `chr(bytes[2] - 0x81 + 65)` (which raises for
`bytes[2] < 0x40`), sequence number from byte 6. -/
def process_alpha_clicker_response (bytes : List Nat) : Option Info :=
  (pychr ((bytes.getD 2 0 : Int) - 0x81 + 65)).map fun response =>
    Info.clickerResponse (clicker_id_from_bytes ((bytes.drop 3).take 3))
      response (bytes.getD 6 0)

/-- `Command.info`: decode a frame by its first two bytes.  Returns `none`
exactly when the Python code raises (inside `chr`). -/
def info (bytes : List Nat) : Option Info :=
  if bytes.getD 0 0 = 0x01 then
    if bytes.getD 1 0 = 0x10 then
      some (Info.setFrequency ((bytes.getD 2 0 : Int) - 0x21) ((bytes.getD 3 0 : Int) - 0x41))
    else if bytes.getD 1 0 = 0x11 then some Info.startPolling
    else if bytes.getD 1 0 = 0x12 then some Info.stopPolling
    else if bytes.getD 1 0 = 0x18 then
      if bytes.getD 2 0 = 0x01 ∧ bytes.getD 3 0 = 0x00 then some Info.resetBase
      else some (Info.unknown bytes)
    else if bytes.getD 1 0 = 0x19 then some (Info.setPollType ((bytes.getD 2 0 : Int) - 0x67))
    else if bytes.getD 1 0 = 0x2d then some Info.setIClicker2Protocol
    else some (Info.unknown bytes)
  else if bytes.getD 0 0 = 0x02 then
    if bytes.getD 1 0 = 0x13 then process_alpha_clicker_response bytes
    else some (Info.unknown bytes)
  else some (Info.unknown bytes)

/-- Whether a decoded `Info` is a clicker response (`info['type'] == 'ClickerResponse'`). -/
def isClickerResponse : Info → Bool
  | Info.clickerResponse _ _ _ => true
  | _ => false

/-- `Command.response_info`: decode the two 32-byte halves independently
and keep the clicker responses, in left-to-right order.  `none` when
decoding one of the halves raises. -/
def response_info (bytes : List Nat) : Option (List Info) := do
  let info1 ← info (mkCommand (bytes.take 32))
  let info2 ← info (mkCommand (bytes.drop 32))
  pure ((if isClickerResponse info1 then [info1] else []) ++
        (if isClickerResponse info2 then [info2] else []))

/-! ## The frames the driver encodes (the source's command constructions) -/

/-- The frame built by `IClickerBase.set_base_frequency` for numeric codes. -/
def set_base_frequency_cmd (code1 code2 : Nat) : List Nat :=
  mkCommand [0x01, 0x10, 0x21 + code1, 0x41 + code2]

/-- The `Command("01 11")` frame sent by `IClickerBase.start_poll`. -/
def start_polling_cmd : List Nat := mkCommand [0x01, 0x11]

/-- The `Command("01 12")` frame sent by `IClickerBase.stop_poll`. -/
def stop_polling_cmd : List Nat := mkCommand [0x01, 0x12]

/-- The frame built by `IClickerBase.set_poll_type` for a numeric poll type
(`alpha` = 0, `numeric` = 1, `alphanumeric` = 2). -/
def set_poll_type_cmd (poll_type : Nat) : List Nat :=
  mkCommand [0x01, 0x19, 0x66 + poll_type, 0x0a, 0x01]

/-- The `Command([0x01, 0x2d])` frame sent by `IClickerBase.set_version_two_protocol`. -/
def set_version_two_protocol_cmd : List Nat := mkCommand [0x01, 0x2d]

/-! ## The synchronous handshake (`IClickerBase._syncronous_write`) -/

/-- A device I/O action performed through the USB transport. -/
inductive IOEvent where
  | send (frame : List Nat)
  | recv (frame : List Nat)
deriving DecidableEq

/-- `IClickerBase._syncronous_write`, given the frame the device answers
with: performs one send and one receive, then raises `IOError` (second
component `true`) unless the received frame equals
`Command([data[0], data[1], 0xaa])`. -/
def syncronous_write (data response : List Nat) : List IOEvent × Bool :=
  let expected_response := mkCommand [data.getD 0 0, data.getD 1 0, 0xaa]
  ([IOEvent.send data, IOEvent.recv response],
    if pad64 response = expected_response then false else true)

/-! ## Responses and the response log -/

/-- The `Response` object; equality (`__eq__`) ignores `click_time`. -/
structure Response where
  clicker_id : String
  response : Char
  seq_num : Nat
  click_time : Nat
deriving DecidableEq

/-- `Response.__eq__`: the `(clicker_id, response, seq_num)` tuple,
`click_time` excluded. -/
def respEq (a b : Response) : Bool :=
  a.clicker_id == b.clicker_id && a.response == b.response && a.seq_num == b.seq_num

/-- `IClickerPoll.responses`: a `defaultdict(list)` keyed by clicker id,
modelled as an insertion-ordered association list with unique keys. -/
abbrev ResponseLog := List (String × List Response)

/-- `self.responses[key]` (the list for `key`, `[]` when absent). -/
def logGet (log : ResponseLog) (key : String) : List Response :=
  ((log.find? fun p => p.1 == key).map Prod.snd).getD []

/-- Whether `key` is already present in the log. -/
def hasKey (log : ResponseLog) (key : String) : Bool :=
  log.any fun p => p.1 == key

/-- `IClickerPoll.add_response`: append `r` to the list for
`r.clicker_id` unless an equal (per `Response.__eq__`) response is
already recorded there. -/
def add_response (log : ResponseLog) (r : Response) : ResponseLog :=
  if (logGet log r.clicker_id).any fun x => respEq x r then log
  else if hasKey log r.clicker_id then
    log.map fun p => if p.1 == r.clicker_id then (p.1, p.2 ++ [r]) else p
  else log ++ [(r.clicker_id, [r])]

/-- `IClickerPoll.get_most_recent_responses`: the last response recorded
for each clicker, in key order. -/
def get_most_recent_responses (log : ResponseLog) : List Response :=
  log.filterMap fun p => p.2.getLast?

/-- The tally `Counter(r.response for r in recent_responses if r.response != 'F')`
evaluated at an answer character. -/
def tallyCount (log : ResponseLog) (c : Char) : Nat :=
  (((get_most_recent_responses log).filter fun r => r.response ≠ 'F').countP
    fun r => r.response = c)

/-- `sum(tally.values())`: the number of most-recent non-retracted responses. -/
def totalVotes (log : ResponseLog) : Nat :=
  ((get_most_recent_responses log).filter fun r => r.response ≠ 'F').length

/-- The string `IClickerPoll.update_display` writes to line 1 of the
display: `"{0} {1} {2} {3} {4}"` of the five truncated percentages when
the tally is nonempty, else the fixed all-zero row. -/
def update_display_line1 (log : ResponseLog) : String :=
  let filtered := (get_most_recent_responses log).filter fun r => r.response ≠ 'F'
  if filtered.length > 0 then
    let total := filtered.length
    toString (100 * (filtered.countP fun r => r.response = 'A') / total) ++ " " ++
    toString (100 * (filtered.countP fun r => r.response = 'B') / total) ++ " " ++
    toString (100 * (filtered.countP fun r => r.response = 'C') / total) ++ " " ++
    toString (100 * (filtered.countP fun r => r.response = 'D') / total) ++ " " ++
    toString (100 * (filtered.countP fun r => r.response = 'E') / total)
  else " 0  0  0  0  0 "

/-! ## The ingestion loop (`IClickerPoll.watch_input`) -/

/-- The outcome of one transport receive: a frame, a timeout, or a
non-timeout I/O error. -/
inductive RecvResult where
  | frame (bytes : List Nat)
  | timeout
  | ioError
deriving DecidableEq

/-- `IClickerBase.read`: wraps `_read` in `Command(...)` and catches
every exception (bare `except`), returning `None` on timeout and on any
other I/O error alike. -/
def base_read : RecvResult → Option (List Nat)
  | RecvResult.frame bytes => some (mkCommand (mkCommand bytes))
  | RecvResult.timeout => none
  | RecvResult.ioError => none

/-- Conversion of a decoded clicker-response `Info` into the `Response`
object `watch_input` builds (timestamps abstracted to `0`; they play no
role in response equality). -/
def infoToResponse : Info → Response
  | Info.clickerResponse cid resp seq => ⟨cid, resp, seq, 0⟩
  | _ => ⟨"", 'A', 0, 0⟩

/-- Adding each decoded response of one frame to the log, in order. -/
def ingest (log : ResponseLog) (infos : List Info) : ResponseLog :=
  infos.foldl (fun l i => add_response l (infoToResponse i)) log

/-- `IClickerPoll.watch_input` run over a finite trace of receive
outcomes: a `None` from `read` just continues the loop; a received frame
has its responses ingested; `none` marks the one way the loop aborts
(an exception from `response_info`). -/
def watch_input : ResponseLog → List RecvResult → Option ResponseLog
  | log, [] => some log
  | log, r :: rest =>
    match base_read r with
    | none => watch_input log rest
    | some bytes =>
      match response_info bytes with
      | none => none
      | some infos => watch_input (ingest log infos) rest

/-! ## Stopping a poll (`IClickerPoll.stop_poll`) -/

/-- The five frames of `IClickerBase.stop_poll`'s `COMMAND_SEQUENCE_A`. -/
def stop_poll_sequence : List (List Nat) :=
  [mkCommand [0x01, 0x12], mkCommand [0x01, 0x16], mkCommand [0x01, 0x17, 0x01],
   mkCommand [0x01, 0x17, 0x03], mkCommand [0x01, 0x17, 0x04]]

/-- The poll state touched by `IClickerPoll.stop_poll`: the shared stop
flag, plus the trace of frames written to the base station. -/
structure PollState where
  STOP_POLL : Bool
  sent : List (List Nat)
deriving DecidableEq

/-- `IClickerPoll.stop_poll`: set the stop flag and (unconditionally)
send the base station's stop command sequence. -/
def stop_poll (s : PollState) : PollState :=
  { STOP_POLL := true, sent := s.sent ++ stop_poll_sequence }

/-! ## The display writer (`IClickerBase.set_screen`) -/

/-- The frame `IClickerBase._set_screen` writes for a line: the line's
2-byte command code followed by the buffered text truncated/padded to 16
characters. -/
def set_screen_frame (line : Fin 2) (string : String) : List Nat :=
  let cmd : List Nat := if line = 0 then [0x01, 0x13] else [0x01, 0x14]
  let s := string.take 16
  let padded := s ++ String.mk (List.replicate (16 - s.length) ' ')
  mkCommand (cmd ++ padded.data.map Char.toNat)

/-- An externally visible effect of `set_screen`: a physical write, or a
deferred `threading.Timer` scheduled to retry after `delay` seconds. -/
inductive ScreenEffect where
  | write (frame : List Nat)
  | timer (delay : ℚ)

/-- The `IClickerBase` display state: per-line screen buffer, per-line
pending-update queue flags, and the time of the last physical write. -/
structure BaseState where
  screen_buffer : Fin 2 → String
  screen_queue : Fin 2 → Bool
  last_set_screen_time : ℚ

/-- `IClickerBase.set_screen` at time `curr_time` (seconds, as an exact
rational): an unchanged buffer with `force_update=False` returns at once;
otherwise the buffer and queue flag are set and `process_screen_queue`
either defers via a timer (within 0.1 s of the last write) or performs
the physical write. -/
def set_screen (s : BaseState) (curr_time : ℚ) (string : String) (line : Fin 2)
    (force_update : Bool) : BaseState × List ScreenEffect :=
  if string = s.screen_buffer line ∧ force_update = false then (s, [])
  else
    let s1 : BaseState :=
      { s with
        screen_buffer := fun l => if l = line then string else s.screen_buffer l,
        screen_queue := fun l => if l = line then true else s.screen_queue l }
    if s1.screen_queue line = false then (s1, [])
    else if curr_time - s1.last_set_screen_time < 1/10 then
      (s1, [ScreenEffect.timer (1/10 - (curr_time - s1.last_set_screen_time))])
    else
      let s2 : BaseState :=
        { s1 with
          screen_queue := fun l => if l = line then false else s1.screen_queue l,
          last_set_screen_time := curr_time }
      (s2, [ScreenEffect.write (set_screen_frame line (s1.screen_buffer line))])

/-! ## Concrete test vectors -/

/-- A 32-byte half carrying the alpha response `A` (seq 5) of clicker `123456`. -/
def halfA : List Nat := [0x02, 0x13, 0x81, 0x12, 0x34, 0x56, 0x05] ++ List.replicate 25 0

/-- A 32-byte half carrying the alpha response `B` (seq 7) of clicker `010203`. -/
def halfB : List Nat := [0x02, 0x13, 0x82, 0x01, 0x02, 0x03, 0x07] ++ List.replicate 25 0

/-- An all-zero 32-byte half, which decodes to `Unknown`. -/
def zeroHalf : List Nat := List.replicate 32 0

/-- A 64-byte frame whose first half is a clicker response and whose second
half is not. -/
def goodFrame : List Nat := mkCommand [0x02, 0x13, 0x81, 0x12, 0x34, 0x56, 0x05]

/-- The response log `{clicker1 → A, clicker2 → B, clicker2 → F}` of the
tally test, built through `add_response`. -/
def logC4 : ResponseLog :=
  add_response (add_response (add_response [] ⟨"AAAA", 'A', 1, 0⟩) ⟨"BBBB", 'B', 1, 0⟩)
    ⟨"BBBB", 'F', 2, 0⟩

/-- A response log whose most-recent answers are `{A, A, B}`, so that the
`A` percentage is the non-integral `200/3`. -/
def logC4b : ResponseLog :=
  add_response (add_response (add_response [] ⟨"AAAA", 'A', 1, 0⟩) ⟨"BBBB", 'A', 1, 0⟩)
    ⟨"CCCC", 'B', 1, 0⟩

/-- Two responses of one clicker identical except for their timestamps. -/
def rDup1 : Response := ⟨"ABCD", 'C', 3, 10⟩

/-- See `rDup1`; same `(clicker_id, response, seq_num)`, later timestamp. -/
def rDup2 : Response := ⟨"ABCD", 'C', 3, 99⟩

/-! ## Helper lemmas -/

theorem respEq_iff {a b : Response} :
    respEq a b = true ↔
      a.clicker_id = b.clicker_id ∧ a.response = b.response ∧ a.seq_num = b.seq_num := by
  simp [respEq, Bool.and_assoc, and_assoc]

theorem respEq_trans {a b c : Response} (h1 : respEq a b = true) (h2 : respEq b c = true) :
    respEq a c = true := by
  rw [respEq_iff] at *
  exact ⟨h1.1.trans h2.1, h1.2.1.trans h2.2.1, h1.2.2.trans h2.2.2⟩

theorem logGet_of_not_hasKey {log : ResponseLog} {k : String} (hk : hasKey log k = false) :
    logGet log k = [] := by
  unfold logGet
  rw [List.find?_eq_none.2]
  · rfl
  · intro p hp
    simp only [hasKey, List.any_eq_false] at hk
    exact hk p hp

theorem logGet_append_new {log : ResponseLog} {k : String} {l : List Response}
    (hk : hasKey log k = false) :
    logGet (log ++ [(k, l)]) k = l := by
  unfold logGet
  rw [List.find?_append, List.find?_eq_none.2, Option.none_or,
    List.find?_cons_of_pos _ (by simp)]
  · rfl
  · intro p hp
    simp only [hasKey, List.any_eq_false] at hk
    exact hk p hp

theorem logGet_map_append {log : ResponseLog} {k : String} (r : Response)
    (hk : hasKey log k = true) :
    logGet (log.map fun p => if p.1 == k then (p.1, p.2 ++ [r]) else p) k
      = logGet log k ++ [r] := by
  induction log with
  | nil => simp [hasKey] at hk
  | cons p rest ih =>
    by_cases hp : (p.1 == k) = true
    · rw [List.map_cons, if_pos hp]
      unfold logGet
      simp only [List.find?_cons, hp]
      rfl
    · have hp' : (p.1 == k) = false := by simpa using hp
      have hk' : hasKey rest k = true := by
        simp only [hasKey, List.any_cons, hp', Bool.false_or] at hk
        exact hk
      rw [List.map_cons, if_neg hp]
      unfold logGet
      simp only [List.find?_cons, hp']
      exact ih hk'

theorem add_response_get_new {log : ResponseLog} {r : Response}
    (h : ∀ x ∈ logGet log r.clicker_id, respEq x r = false) :
    logGet (add_response log r) r.clicker_id = logGet log r.clicker_id ++ [r] := by
  have hany : ((logGet log r.clicker_id).any fun x => respEq x r) = false :=
    List.any_eq_false.2 fun x hx => by simp [h x hx]
  unfold add_response
  rw [if_neg (by rw [hany]; exact Bool.false_ne_true)]
  by_cases hk : hasKey log r.clicker_id
  · rw [if_pos hk]
    exact logGet_map_append r hk
  · rw [if_neg hk, logGet_append_new (Bool.not_eq_true _ ▸ hk),
      logGet_of_not_hasKey (Bool.not_eq_true _ ▸ hk)]
    rfl

theorem add_response_dup {log : ResponseLog} {r : Response}
    (h : ∃ x ∈ logGet log r.clicker_id, respEq x r = true) :
    add_response log r = log := by
  unfold add_response
  rw [if_pos (List.any_eq_true.2 h)]

theorem add_response_absorb (log : ResponseLog) {r r2 : Response}
    (h : respEq r r2 = true) :
    add_response (add_response log r) r2 = add_response log r := by
  have hcid : r.clicker_id = r2.clicker_id := (respEq_iff.1 h).1
  by_cases hd : ∃ x ∈ logGet log r.clicker_id, respEq x r = true
  · obtain ⟨x, hmem, hxr⟩ := hd
    rw [add_response_dup ⟨x, hmem, hxr⟩]
    exact add_response_dup ⟨x, hcid ▸ hmem, respEq_trans hxr h⟩
  · push_neg at hd
    have hnew := add_response_get_new (r := r) fun x hx =>
      Bool.not_eq_true _ ▸ hd x hx
    apply add_response_dup
    refine ⟨r, ?_, h⟩
    rw [← hcid, hnew]
    simp

set_option maxRecDepth 100000 in
theorem pyHex02X_length {n : Nat} (h : n < 256) : (pyHex02X n).length = 2 := by
  have hall : ∀ m : Nat, m < 256 → (pyHex02X m).length = 2 := by decide
  exact hall n h

set_option maxRecDepth 100000 in
theorem pyHex02X_chars {n : Nat} (h : n < 256) :
    ∀ c ∈ (pyHex02X n).data, c ∈ "0123456789ABCDEF".data := by
  have hall : ∀ m : Nat, m < 256 → ∀ c ∈ (pyHex02X m).data, c ∈ "0123456789ABCDEF".data := by
    decide
  exact hall n h

/-! ## Claim theorems -/

/-- C3: a new `Response` is appended to the sequence for its clicker id
exactly when no already-recorded response for that clicker has the same
`(clicker_id, response, seq_num)` tuple (timestamps ignored); re-adding a
response that differs only in its timestamp leaves the log unchanged, so
two such responses produce exactly one stored entry, the first. -/
theorem add_response_dedup (log : ResponseLog) (r r2 : Response) :
    ((∀ x ∈ logGet log r.clicker_id, respEq x r = false) →
      logGet (add_response log r) r.clicker_id = logGet log r.clicker_id ++ [r]) ∧
    ((∃ x ∈ logGet log r.clicker_id, respEq x r = true) → add_response log r = log) ∧
    (respEq r r2 = true → add_response (add_response log r) r2 = add_response log r) ∧
    (respEq r r2 = true → add_response (add_response [] r) r2 = [(r.clicker_id, [r])]) := by
  refine ⟨fun h => add_response_get_new h, fun h => add_response_dup h,
    fun h => add_response_absorb log h, fun h => ?_⟩
  rw [add_response_absorb [] h]
  rfl

theorem add_response_dedup_witness :
    add_response (add_response [] rDup1) rDup2 = [("ABCD", [rDup1])] :=
  (add_response_dedup [] rDup1 rDup2).2.2.2 (by decide)

/-- C6: `_syncronous_write` raises exactly when the received frame is not
byte-wise equal to the 3-byte prefix `{data[0], data[1], 0xAA}` zero-padded
to 64 bytes, and in every case it performs exactly one send followed by
exactly one receive: there is no retry. -/
theorem syncronous_write_spec (data response : List Nat) :
    ((syncronous_write data response).2 = true ↔
      pad64 response ≠ data.getD 0 0 :: data.getD 1 0 :: 0xaa :: List.replicate 61 0) ∧
    (syncronous_write data response).1 = [IOEvent.send data, IOEvent.recv response] ∧
    ((syncronous_write data response).1.countP fun e =>
        match e with | IOEvent.send _ => true | _ => false) = 1 ∧
    ((syncronous_write data response).1.countP fun e =>
        match e with | IOEvent.recv _ => true | _ => false) = 1 := by
  refine ⟨?_, rfl, rfl, rfl⟩
  have hexp : mkCommand [data.getD 0 0, data.getD 1 0, 0xaa]
      = data.getD 0 0 :: data.getD 1 0 :: 0xaa :: List.replicate 61 0 := rfl
  show (if pad64 response = mkCommand [data.getD 0 0, data.getD 1 0, 0xaa]
      then false else true) = true ↔ _
  rw [hexp]
  split_ifs with h
  · simp [h]
  · exact iff_of_true rfl h

/-- C7, counterexample: a non-timeout I/O error from the transport does
not propagate out of the ingestion loop — `read`'s bare `except` turns it
into `None`, the loop continues, and a frame received after the error is
still ingested; an error as the last event leaves the loop completing
normally. -/
theorem watch_input_ioerror_cex :
    watch_input [] [RecvResult.ioError, RecvResult.frame goodFrame]
      = some [("12345670", [⟨"12345670", 'A', 5, 0⟩])] ∧
    watch_input [] [RecvResult.ioError] = some [] := by decide

/-- C7, amended: `IClickerBase.read` catches every exception of the
receive (timeouts and I/O errors alike) and returns `None`, and the
ingestion loop treats that as "nothing to read" and keeps looping; a
mid-poll I/O error is silently swallowed, not propagated. -/
theorem watch_input_ioerror_amended :
    base_read RecvResult.ioError = none ∧
    base_read RecvResult.ioError = base_read RecvResult.timeout ∧
    ∀ (log : ResponseLog) (rest : List RecvResult),
      watch_input log (RecvResult.ioError :: rest) = watch_input log rest :=
  ⟨rfl, rfl, fun _ _ => rfl⟩

/-- C8, counterexample: calling `IClickerPoll.stop_poll` twice sends the
five-command stop sequence twice, not once. -/
theorem stop_poll_duplicate_cex :
    (stop_poll (stop_poll ⟨false, []⟩)).sent = stop_poll_sequence ++ stop_poll_sequence ∧
    (stop_poll (stop_poll ⟨false, []⟩)).sent ≠ stop_poll_sequence :=
  ⟨rfl, by decide⟩

/-- C8, amended: `stop_poll` is idempotent on the `STOP_POLL` flag, but
every call unconditionally re-sends the base station's stop command
sequence, so `n` calls send the sequence `n` times. -/
theorem stop_poll_flag_idempotent (s : PollState) :
    (stop_poll s).STOP_POLL = true ∧
    (stop_poll (stop_poll s)).STOP_POLL = (stop_poll s).STOP_POLL ∧
    stop_poll (stop_poll s) = ⟨true, s.sent ++ stop_poll_sequence ++ stop_poll_sequence⟩ :=
  ⟨rfl, rfl, rfl⟩

/-- C10: when the requested text equals the buffered text for that line
and `force_update` is false, `set_screen` returns immediately: no physical
write, no deferred timer, and the screen buffer, queue flags and last-write
timestamp all keep their previous values — regardless of how much time has
elapsed since the last write. -/
theorem set_screen_noop (s : BaseState) (curr_time : ℚ) (string : String) (line : Fin 2)
    (h : string = s.screen_buffer line) :
    set_screen s curr_time string line false = (s, []) := by
  unfold set_screen
  rw [if_pos ⟨h, rfl⟩]

theorem set_screen_noop_witness :
    set_screen ⟨fun _ => " 0  0  0  0  0 ", fun _ => false, 0⟩ 1000 " 0  0  0  0  0 " 1 false
      = (⟨fun _ => " 0  0  0  0  0 ", fun _ => false, 0⟩, []) :=
  set_screen_noop _ 1000 " 0  0  0  0  0 " 1 rfl

/-- C1, counterexample: the encoder writes `0x66 + poll_type` into byte 2
but the decoder reads `byte2 - 0x67`, so decoding the encoded
`SetPollType` frame yields `quiz_type - 1`, not `quiz_type`: for the
`alpha` poll type (0) the decoded quiz type is `-1`. -/
theorem set_poll_type_roundtrip_cex :
    info (set_poll_type_cmd 0) = some (Info.setPollType (-1)) ∧
    info (set_poll_type_cmd 0) ≠ some (Info.setPollType 0) := by decide

/-- C1, amended: every `Message` variant the source both encodes and
decodes round-trips — `SetFrequency` (for byte-valid codes),
`StartPolling`, `StopPolling`, `SetProtocolV2` — except `SetPollType`,
whose decoded quiz type is the encoded poll type minus one. -/
theorem encode_decode_roundtrip (c1 c2 p : Nat)
    (hc1 : 0x21 + c1 < 256) (hc2 : 0x41 + c2 < 256) (hp : 0x66 + p < 256) :
    info (set_base_frequency_cmd c1 c2) = some (Info.setFrequency c1 c2) ∧
    info start_polling_cmd = some Info.startPolling ∧
    info stop_polling_cmd = some Info.stopPolling ∧
    info set_version_two_protocol_cmd = some Info.setIClicker2Protocol ∧
    info (set_poll_type_cmd p) = some (Info.setPollType ((p : Int) - 1)) := by
  refine ⟨?_, rfl, rfl, rfl, ?_⟩
  · have h : info (set_base_frequency_cmd c1 c2)
        = some (Info.setFrequency (((0x21 + c1 : Nat) : Int) - 0x21)
            (((0x41 + c2 : Nat) : Int) - 0x41)) := rfl
    rw [h]
    have e1 : ((0x21 + c1 : Nat) : Int) - 0x21 = (c1 : Int) := by push_cast; ring
    have e2 : ((0x41 + c2 : Nat) : Int) - 0x41 = (c2 : Int) := by push_cast; ring
    rw [e1, e2]
  · have h : info (set_poll_type_cmd p)
        = some (Info.setPollType (((0x66 + p : Nat) : Int) - 0x67)) := rfl
    rw [h]
    have e : ((0x66 + p : Nat) : Int) - 0x67 = (p : Int) - 1 := by push_cast; ring
    rw [e]

theorem encode_decode_roundtrip_witness :
    info (set_base_frequency_cmd 0 1) = some (Info.setFrequency 0 1) ∧
    info (set_poll_type_cmd 0) = some (Info.setPollType (((0 : Nat) : Int) - 1)) :=
  ⟨(encode_decode_roundtrip 0 1 0 (by decide) (by decide) (by decide)).1,
   (encode_decode_roundtrip 0 1 0 (by decide) (by decide) (by decide)).2.2.2.2⟩

/-- C2, counterexample: decoding is not total.  A frame whose first two
bytes are `0x02, 0x13` but whose byte 2 is below `0x40` makes
`chr(bytes[2] - 0x81 + 65)` raise `ValueError`, so `info` fails instead of
succeeding. -/
theorem decode_total_cex : info (mkCommand [0x02, 0x13, 0x00]) = none := by decide

/-- C2, amended: decoding succeeds for every frame except those with
`byte0 = 0x02`, `byte1 = 0x13` and `byte2 < 0x40`, where the answer
recoding `chr(byte2 - 0x81 + 65)` raises; every other unrecognized byte
pattern decodes to `Unknown` and `MalformedFrame` is never raised. -/
theorem decode_total (bytes : List Nat) (h2 : bytes.getD 2 0 < 256) :
    (info bytes).isSome = true ↔
      ¬(bytes.getD 0 0 = 0x02 ∧ bytes.getD 1 0 = 0x13 ∧ bytes.getD 2 0 < 0x40) := by
  unfold info
  split_ifs with ha hb hc hd he hf hg hh hi hj
  · exact iff_of_true rfl (by omega)
  · exact iff_of_true rfl (by omega)
  · exact iff_of_true rfl (by omega)
  · exact iff_of_true rfl (by omega)
  · exact iff_of_true rfl (by omega)
  · exact iff_of_true rfl (by omega)
  · exact iff_of_true rfl (by omega)
  · exact iff_of_true rfl (by omega)
  · unfold process_alpha_clicker_response pychr
    split_ifs with hc2
    · exact iff_of_true rfl (by omega)
    · refine iff_of_false ?_ ?_
      · rw [Option.map_none']
        exact fun hfalse => absurd hfalse Bool.false_ne_true
      · exact fun hno => absurd ⟨hi, hj, by omega⟩ hno
  · exact iff_of_true rfl (by omega)
  · exact iff_of_true rfl (by omega)

theorem decode_total_witness :
    (info (mkCommand [0x01, 0x11, 0x00])).isSome = true ↔
      ¬((mkCommand [0x01, 0x11, 0x00]).getD 0 0 = 0x02 ∧
        (mkCommand [0x01, 0x11, 0x00]).getD 1 0 = 0x13 ∧
        (mkCommand [0x01, 0x11, 0x00]).getD 2 0 < 0x40) :=
  decode_total (mkCommand [0x01, 0x11, 0x00]) (by decide)

/-- C4, counterexample: the displayed percentages are computed with
truncating integer division and joined by single spaces, so for the log
`{clicker1 → A, clicker2 → B, clicker2 → F}` the line-1 row is
`"100 0 0 0 0"`, not `"100  0  0  0  0"`; and for most-recent answers
`{A, A, B}` the `A` percentage is `66`, not `round(200/3) = 67`. -/
theorem tally_display_cex :
    update_display_line1 logC4 = "100 0 0 0 0" ∧
    "100 0 0 0 0" ≠ "100  0  0  0  0" ∧
    update_display_line1 logC4b = "66 33 0 0 0" ∧
    (round ((100 * 2 : ℚ) / 3) : ℤ) = 67 ∧ (66 : ℤ) ≠ 67 := by
  refine ⟨by decide, by decide, by decide, ?_, by decide⟩
  norm_num [round_eq]

/-- C4, amended: when the tally is nonempty the line-1 row is the five
values `⌊100 * count / total⌋` for answers A–E joined by single spaces,
where the tally counts the most-recent non-retracted (`≠ 'F'`) response
per clicker; for `{clicker1 → A, clicker2 → B, clicker2 → F}` the tally is
`{A: 1}`, the total is 1 and the row is `"100 0 0 0 0"`. -/
theorem tally_display_floor :
    (∀ log : ResponseLog, 0 < totalVotes log →
      update_display_line1 log =
        toString (100 * tallyCount log 'A' / totalVotes log) ++ " " ++
        toString (100 * tallyCount log 'B' / totalVotes log) ++ " " ++
        toString (100 * tallyCount log 'C' / totalVotes log) ++ " " ++
        toString (100 * tallyCount log 'D' / totalVotes log) ++ " " ++
        toString (100 * tallyCount log 'E' / totalVotes log)) ∧
    tallyCount logC4 'A' = 1 ∧ totalVotes logC4 = 1 ∧
    update_display_line1 logC4 = "100 0 0 0 0" := by
  refine ⟨?_, by decide, by decide, by decide⟩
  intro log h
  simp only [totalVotes] at h
  simp only [update_display_line1, tallyCount, totalVotes]
  rw [if_pos h]

theorem tally_display_floor_witness :
    update_display_line1 logC4 =
      toString (100 * tallyCount logC4 'A' / totalVotes logC4) ++ " " ++
      toString (100 * tallyCount logC4 'B' / totalVotes logC4) ++ " " ++
      toString (100 * tallyCount logC4 'C' / totalVotes logC4) ++ " " ++
      toString (100 * tallyCount logC4 'D' / totalVotes logC4) ++ " " ++
      toString (100 * tallyCount logC4 'E' / totalVotes logC4) :=
  tally_display_floor.1 logC4 (by decide)

/-- C5: a 64-byte frame is decoded by splitting into its two 32-byte
halves, decoding each independently, and keeping the clicker responses in
left-to-right order: two response halves yield exactly `[i1, i2]`, one
response half yields exactly that event, and a frame with at least one
response half never yields zero events. -/
theorem response_info_split (bytes : List Nat) (i1 i2 : Info)
    (h1 : info (mkCommand (bytes.take 32)) = some i1)
    (h2 : info (mkCommand (bytes.drop 32)) = some i2) :
    response_info bytes =
      some ((if isClickerResponse i1 then [i1] else []) ++
            (if isClickerResponse i2 then [i2] else [])) ∧
    (isClickerResponse i1 = true → isClickerResponse i2 = true →
      response_info bytes = some [i1, i2]) ∧
    (isClickerResponse i1 = true → isClickerResponse i2 = false →
      response_info bytes = some [i1]) ∧
    (isClickerResponse i1 = false → isClickerResponse i2 = true →
      response_info bytes = some [i2]) ∧
    ((isClickerResponse i1 = true ∨ isClickerResponse i2 = true) →
      response_info bytes ≠ some []) := by
  have hmain : response_info bytes =
      some ((if isClickerResponse i1 then [i1] else []) ++
            (if isClickerResponse i2 then [i2] else [])) := by
    unfold response_info
    rw [h1, h2]
    rfl
  refine ⟨hmain, fun e1 e2 => ?_, fun e1 e2 => ?_, fun e1 e2 => ?_, fun e => ?_⟩
  · rw [hmain, e1, e2]; rfl
  · rw [hmain, e1, e2]; rfl
  · rw [hmain, e1, e2]; rfl
  · rw [hmain]
    rcases e with e | e <;> rw [e] <;> intro hcontra <;>
      simp only [if_true, Option.some.injEq] at hcontra
    · exact absurd (congrArg List.length hcontra) (by simp)
    · exact absurd (congrArg List.length hcontra) (by simp)

theorem response_info_split_witness :
    response_info (halfA ++ halfB)
      = some [Info.clickerResponse "12345670" 'A' 5, Info.clickerResponse "01020300" 'B' 7] ∧
    response_info (halfA ++ zeroHalf)
      = some [Info.clickerResponse "12345670" 'A' 5] :=
  ⟨(response_info_split (halfA ++ halfB) (Info.clickerResponse "12345670" 'A' 5)
      (Info.clickerResponse "01020300" 'B' 7) (by decide) (by decide)).2.1 rfl rfl,
   (response_info_split (halfA ++ zeroHalf) (Info.clickerResponse "12345670" 'A' 5)
      (Info.unknown (mkCommand zeroHalf)) (by decide) (by decide)).2.2.1 rfl rfl⟩

/-- C9, counterexample: the computed clicker id is an 8-character hex
string (four bytes, two hex digits each), not a 4-character one. -/
theorem clicker_id_length_cex :
    (clicker_id_from_bytes [0x12, 0x34, 0x56]).length = 8 ∧
    (clicker_id_from_bytes [0x12, 0x34, 0x56]).length ≠ 4 := by decide

/-- C9, amended: for every 3-byte prefix the computed clicker id is the
8-character uppercase-hex encoding of the four bytes
`b0, b1, b2, b0 XOR b1 XOR b2` — its 4th (checksum) byte is
`b0 XOR b1 XOR b2`. -/
theorem clicker_id_checksum (b0 b1 b2 : Nat) (h0 : b0 < 256) (h1 : b1 < 256)
    (h2 : b2 < 256) :
    clicker_id_from_bytes [b0, b1, b2]
      = pyHex02X b0 ++ pyHex02X b1 ++ pyHex02X b2
          ++ pyHex02X (Nat.xor (Nat.xor b0 b1) b2) ∧
    (clicker_id_from_bytes [b0, b1, b2]).length = 8 ∧
    ∀ c ∈ (clicker_id_from_bytes [b0, b1, b2]).data, c ∈ "0123456789ABCDEF".data := by
  have hx : Nat.xor (Nat.xor b0 b1) b2 < 256 := by
    have h256 : (256 : Nat) = 2 ^ 8 := by norm_num
    rw [h256] at h0 h1 h2 ⊢
    exact Nat.xor_lt_two_pow (Nat.xor_lt_two_pow h0 h1) h2
  have hjoin : clicker_id_from_bytes [b0, b1, b2]
      = pyHex02X b0 ++ pyHex02X b1 ++ pyHex02X b2
          ++ pyHex02X (Nat.xor (Nat.xor b0 b1) b2) := by
    unfold clicker_id_from_bytes
    apply String.ext
    simp [String.join, String.data_append]
  refine ⟨hjoin, ?_, ?_⟩
  · rw [hjoin]
    simp only [String.length_append, pyHex02X_length h0, pyHex02X_length h1,
      pyHex02X_length h2, pyHex02X_length hx]
  · rw [hjoin]
    intro c hc
    simp only [String.data_append, List.mem_append] at hc
    rcases hc with ((hc | hc) | hc) | hc
    · exact pyHex02X_chars h0 c hc
    · exact pyHex02X_chars h1 c hc
    · exact pyHex02X_chars h2 c hc
    · exact pyHex02X_chars hx c hc

theorem clicker_id_checksum_witness :
    clicker_id_from_bytes [0x12, 0x34, 0x56]
      = pyHex02X 0x12 ++ pyHex02X 0x34 ++ pyHex02X 0x56
          ++ pyHex02X (Nat.xor (Nat.xor 0x12 0x34) 0x56) :=
  (clicker_id_checksum 0x12 0x34 0x56 (by decide) (by decide) (by decide)).1

end IClicker
